import Mathlib

/-!
Verification of the session-lifecycle manager in
`src/test-youtu-agent/sample-python.py` (`PlayerStats`, `GameSessionManager`).

Shallow embedding conventions:
* timestamps (`datetime.now()`) are rationals, passed explicitly as a `now`
  argument at each call that reads the clock;
* the registry dictionary `self.active_sessions` is an association list
  `List (String × Session)` preserving insertion order, as a Python dict does;
* Python exceptions are modelled by `Except PyError`, with `RuntimeError` and
  `ValueError` constructors carrying the message built in the source;
* session payload entries never read by the manager (`inventory`, `position`)
  are omitted from the `Session` record — no claim and no manager code path
  depends on them;
* the `memory_usage` entry of `get_session_summary` (a string-length byte
  estimate) is omitted from the summary record for the same reason;
* a context-manager body is a function `Session → Except PyError α × Session`:
  it returns the (possibly partially mutated) session dict together with
  either the value produced by the block or the exception it raised.
-/

namespace SmartAIBridge

/-- The `state` values written by the source: `'active'`, `'completed'`, `'error'`. -/
inductive SessionState where
  | active
  | completed
  | error
deriving DecidableEq

/-- Python exceptions raised by the component: `RuntimeError(msg)` / `ValueError(msg)`. -/
inductive PyError where
  | runtimeError (msg : String)
  | valueError (msg : String)
deriving DecidableEq

/-- `PlayerStats` dataclass fields (Python `int`s are unbounded, hence `Int`). -/
structure PlayerStats where
  health : Int
  mana : Int
  experience : Int
  level : Int
  last_updated : ℚ
deriving DecidableEq

/-- `PlayerStats(**kwargs)`: defaults `health=100, mana=50, experience=0, level=1`,
`last_updated = datetime.now()`; then `__post_init__` raises
`ValueError("Health cannot be negative")` when `health < 0` and
`ValueError("Level must be at least 1")` when `level < 1`. -/
def mkPlayerStats (now : ℚ) (health mana experience level : Option Int) :
    Except PyError PlayerStats :=
  let s : PlayerStats :=
    { health := health.getD 100
      mana := mana.getD 50
      experience := experience.getD 0
      level := level.getD 1
      last_updated := now }
  if s.health < 0 then Except.error (PyError.valueError "Health cannot be negative")
  else if s.level < 1 then Except.error (PyError.valueError "Level must be at least 1")
  else Except.ok s

/-- The keyword arguments a caller may pass for a stats dict: each of the four
validated fields is optional (`stat_updates.get(...)` / `player_data['stats']`). -/
structure StatsInput where
  health : Option Int := none
  mana : Option Int := none
  experience : Option Int := none
  level : Option Int := none
deriving DecidableEq

/-- The `session['player']` sub-dict (its `inventory` / `position` entries are
opaque payload never read by the manager and are omitted). -/
structure Player where
  name : String
  stats : PlayerStats
deriving DecidableEq

/-- One session dict as built by `create_session`. -/
structure Session where
  id : String
  player : Player
  created_at : ℚ
  last_activity : ℚ
  state : SessionState
deriving DecidableEq

/-- The `player_data` argument of `create_session`: `.get('name', 'Unknown')`
and `.get('stats', {})` are the only entries the manager reads. -/
structure PlayerData where
  name : Option String := none
  stats : Option StatsInput := none
deriving DecidableEq

/-- `GameSessionManager` attributes: the capacity bound, the registry dict and
the four counters of `self.session_stats`. -/
structure GameSessionManager where
  max_concurrent_sessions : Nat
  active_sessions : List (String × Session)
  stats_created : Nat
  stats_active : Nat
  stats_completed : Nat
  stats_failed : Nat
deriving DecidableEq

/-- `GameSessionManager.__init__(max_concurrent_sessions)`. -/
def GameSessionManager.init (maxConcurrent : Nat) : GameSessionManager :=
  { max_concurrent_sessions := maxConcurrent
    active_sessions := []
    stats_created := 0
    stats_active := 0
    stats_completed := 0
    stats_failed := 0 }

/-- Dict lookup `self.active_sessions.get(session_id)`. -/
def lookupSession : List (String × Session) → String → Option Session
  | [], _ => none
  | (k, s) :: rest, sid => if k = sid then some s else lookupSession rest sid

/-- Dict store `self.active_sessions[session_id] = session` (update in place if
the key exists, else append, as a Python dict does). -/
def storeSession : List (String × Session) → String → Session → List (String × Session)
  | [], sid, s => [(sid, s)]
  | (k, s0) :: rest, sid, s =>
      if k = sid then (sid, s) :: rest else (k, s0) :: storeSession rest sid s

/-- Message of the `RuntimeError` raised at the capacity check. -/
def capacityMsg (n : Nat) : String :=
  "Maximum concurrent sessions reached: " ++ toString n

/-- Message of the `ValueError` raised by `session_context` on an unknown id. -/
def notFoundMsg (sid : String) : String :=
  "Session " ++ sid ++ " not found"

/-- `create_session(session_id, player_data)`. The source, in order:
1. raises `RuntimeError` when `len(self.active_sessions) >= self.max_concurrent_sessions`
   (the whole dict is counted, whatever the sessions' states);
2. returns the existing entry unchanged when `session_id` is already a key;
3. validates `PlayerStats(**player_data.get('stats', {}))`; on `ValueError` it
   increments `session_stats['failed']` and re-raises without registering anything;
4. on success inserts the new session and increments `created` and `active`.
The returned pair is (raised exception or returned session, manager afterwards). -/
def create_session (now : ℚ) (m : GameSessionManager) (session_id : String)
    (player_data : PlayerData) : Except PyError Session × GameSessionManager :=
  if m.active_sessions.length ≥ m.max_concurrent_sessions then
    (Except.error (PyError.runtimeError (capacityMsg m.max_concurrent_sessions)), m)
  else
    match lookupSession m.active_sessions session_id with
    | some existing => (Except.ok existing, m)
    | none =>
      let si := player_data.stats.getD {}
      match mkPlayerStats now si.health si.mana si.experience si.level with
      | Except.error e =>
          (Except.error e, { m with stats_failed := m.stats_failed + 1 })
      | Except.ok stats =>
          let session : Session :=
            { id := session_id
              player := { name := player_data.name.getD "Unknown", stats := stats }
              created_at := now
              last_activity := now
              state := SessionState.active }
          (Except.ok session,
           { m with
              active_sessions := storeSession m.active_sessions session_id session
              stats_created := m.stats_created + 1
              stats_active := m.stats_active + 1 })

/-- `session_context(session_id)` driving a `with` block `body`. The source:
1. `self.active_sessions.get(session_id)`; raises `ValueError` when absent;
2. sets `session['last_activity'] = datetime.now()` and yields the session;
3. on an exception from the body, sets `session['state'] = 'error'` and re-raises;
4. `finally`: if the state is not `'error'`, sets it to `'completed'`.
The body receives the session dict and returns the mutated dict together with
its outcome; the final dict is written back into the registry (in Python the
body mutates the registry's own dict in place). -/
def session_context {α : Type} (now : ℚ) (m : GameSessionManager) (session_id : String)
    (body : Session → Except PyError α × Session) :
    Except PyError α × GameSessionManager :=
  match lookupSession m.active_sessions session_id with
  | none => (Except.error (PyError.valueError (notFoundMsg session_id)), m)
  | some session =>
    let s1 : Session := { session with last_activity := now }
    let r := body s1
    let s3 : Session :=
      match r.1 with
      | Except.error _ => { r.2 with state := SessionState.error }
      | Except.ok _ => r.2
    let s4 : Session :=
      if s3.state ≠ SessionState.error then { s3 with state := SessionState.completed } else s3
    (r.1, { m with active_sessions := storeSession m.active_sessions session_id s4 })

/-- `update_player_stats(session_id, stat_updates)`: inside a `session_context`
scope it rebuilds `updated_data` with `stat_updates.get(f, current.f)` for the
four fields, validates it via `PlayerStats(**updated_data)` (fresh
`last_updated`), stores the new stats and returns `True`; any exception
(unknown id or `ValueError` from validation) is caught and `False` returned. -/
def update_player_stats (now : ℚ) (m : GameSessionManager) (session_id : String)
    (stat_updates : StatsInput) : Bool × GameSessionManager :=
  let r := session_context now m session_id (fun session =>
    let cur := session.player.stats
    match mkPlayerStats now
        (some (stat_updates.health.getD cur.health))
        (some (stat_updates.mana.getD cur.mana))
        (some (stat_updates.experience.getD cur.experience))
        (some (stat_updates.level.getD cur.level)) with
    | Except.error e => (Except.error e, session)
    | Except.ok new_stats =>
        (Except.ok true, { session with player := { session.player with stats := new_stats } }))
  match r.1 with
  | Except.ok b => (b, r.2)
  | Except.error _ => (false, r.2)

/-- `_calculate_average_session_time`: returns `0.0` on an empty registry, else
accumulates `datetime.now() - created_at` and a count over the dict values
(every session dict carries a truthy `created_at`, so every value is counted)
and returns `total.total_seconds() / 60 / count` — minutes, per its docstring. -/
def _calculate_average_session_time (now : ℚ) (m : GameSessionManager) : ℚ :=
  if m.active_sessions.isEmpty then 0
  else
    let acc := m.active_sessions.foldl
      (fun (tc : ℚ × Nat) p => (tc.1 + (now - p.2.created_at), tc.2 + 1)) ((0 : ℚ), 0)
    if acc.2 > 0 then acc.1 / 60 / (acc.2 : ℚ) else 0

/-- One step of `_get_level_distribution`'s loop:
`distribution[level] = distribution.get(level, 0) + 1`. -/
def bumpLevel : List (Int × Nat) → Int → List (Int × Nat)
  | [], l => [(l, 1)]
  | (k, c) :: rest, l => if k = l then (k, c + 1) :: rest else (k, c) :: bumpLevel rest l

/-- `_get_level_distribution`: level → count over every registry value. -/
def _get_level_distribution (m : GameSessionManager) : List (Int × Nat) :=
  m.active_sessions.foldl (fun d p => bumpLevel d p.2.player.stats.level) []

/-- The dict returned by `get_session_summary` (its `memory_usage` byte
estimate is omitted, see the file header). -/
structure SessionSummary where
  created : Nat
  active : Nat
  completed : Nat
  failed : Nat
  active_count : Nat
  average_session_time : ℚ
  player_levels : List (Int × Nat)
deriving DecidableEq

/-- `get_session_summary`: copies the counters, counts the values whose state
is `'active'`, and attaches the two derived aggregates. It writes nothing. -/
def get_session_summary (now : ℚ) (m : GameSessionManager) : SessionSummary :=
  { created := m.stats_created
    active := m.stats_active
    completed := m.stats_completed
    failed := m.stats_failed
    active_count :=
      (m.active_sessions.filter (fun p => decide (p.2.state = SessionState.active))).length
    average_session_time := _calculate_average_session_time now m
    player_levels := _get_level_distribution m }

/-- One externally invocable operation of the manager, for reachability
statements over call sequences. `scope` carries an arbitrary body. -/
inductive Op where
  | create (now : ℚ) (sid : String) (pd : PlayerData)
  | scope (now : ℚ) (sid : String) (body : Session → Except PyError Unit × Session)
  | update (now : ℚ) (sid : String) (upd : StatsInput)
  | summary (now : ℚ)

/-- The manager state after one operation. `get_session_summary` only reads
(`self.session_stats.copy()` and comprehensions over values), so `summary`
leaves the state unchanged. -/
def applyOp (m : GameSessionManager) : Op → GameSessionManager
  | Op.create now sid pd => (create_session now m sid pd).2
  | Op.scope now sid body => (session_context now m sid body).2
  | Op.update now sid upd => (update_player_stats now m sid upd).2
  | Op.summary _ => m

/-- The manager state after a call sequence. -/
def applyOps (m : GameSessionManager) (ops : List Op) : GameSessionManager :=
  ops.foldl applyOp m

/-- Modelled from the spec: `averageLifetimeSeconds` as the spec words it, the
mean of `(now − createdAt)` in seconds over the snapshot, `0` when empty —
written only to be compared against `_calculate_average_session_time`. -/
def averageLifetimeSeconds_specModel (now : ℚ) (m : GameSessionManager) : ℚ :=
  if m.active_sessions.isEmpty then 0
  else ((m.active_sessions.map (fun p => now - p.2.created_at)).sum) /
        (m.active_sessions.length : ℚ)

/-! Concrete states used to exercise the definitions. -/

/-- `player_data = {}`: no name, no stats dict. -/
def pdDefault : PlayerData := {}

/-- Stats dict with a negative health, invalid at validation. -/
def exBadStats : StatsInput := { health := some (-5) }

/-- `player_data` carrying the invalid stats dict. -/
def pdBad : PlayerData := { stats := some exBadStats }

/-- The session `create_session(now=0, "a", {})` builds from the defaults. -/
def exSessionA : Session :=
  { id := "a"
    player :=
      { name := "Unknown"
        stats := { health := 100, mana := 50, experience := 0, level := 1, last_updated := 0 } }
    created_at := 0
    last_activity := 0
    state := SessionState.active }

/-- A bound-1 manager holding the single session `"a"` (still active). -/
def exManager1 : GameSessionManager :=
  (create_session 0 (GameSessionManager.init 1) "a" pdDefault).2

/-- The bound-1 manager after scoping `"a"` to completion: one registered
session, zero active sessions. -/
def exManager1Done : GameSessionManager :=
  (session_context 1 exManager1 "a" (fun s => (Except.ok (), s))).2

/-- A bound-2 manager holding the single session `"a"` (still active). -/
def exManager2 : GameSessionManager :=
  (create_session 0 (GameSessionManager.init 2) "a" pdDefault).2

/-- A scope body that raises `ValueError("boom")` without touching the session. -/
def exFailBody : Session → Except PyError Unit × Session :=
  fun s => (Except.error (PyError.valueError "boom"), s)

/-- A scope body that writes `state = 'error'` and then returns normally. -/
def exErrBody : Session → Except PyError Unit × Session :=
  fun s => (Except.ok (), { s with state := SessionState.error })

/-- A stat patch naming only `health`. -/
def exUpd : StatsInput := { health := some 7 }

/-! Helper lemmas shared by the claim theorems. -/

lemma lookup_storeSession_self (l : List (String × Session)) (sid : String) (s : Session) :
    lookupSession (storeSession l sid s) sid = some s := by
  induction l with
  | nil => simp [storeSession, lookupSession]
  | cons p tl ih =>
      by_cases h : p.1 = sid
      · simp [storeSession, lookupSession, h]
      · simp [storeSession, lookupSession, h, ih]

lemma mkPlayerStats_exhaust (now : ℚ) (h m e l : Option Int) :
    (∃ s, mkPlayerStats now h m e l = Except.ok s) ∨
      mkPlayerStats now h m e l =
        Except.error (PyError.valueError "Health cannot be negative") ∨
      mkPlayerStats now h m e l =
        Except.error (PyError.valueError "Level must be at least 1") := by
  unfold mkPlayerStats
  by_cases hh : (h.getD 100 : Int) < 0
  · simp [hh]
  · by_cases hl2 : (l.getD 1 : Int) < 1
    · simp [hh, hl2]
    · simp [hh, hl2]

lemma mkPlayerStats_ne_runtimeError (now : ℚ) (h m e l : Option Int) (msg : String) :
    mkPlayerStats now h m e l ≠ Except.error (PyError.runtimeError msg) := by
  rcases mkPlayerStats_exhaust now h m e l with ⟨s, hs⟩ | hs | hs <;> simp [hs]

lemma create_ok_lookup (now : ℚ) (m : GameSessionManager) (sid : String)
    (pd : PlayerData) (s : Session) (h : (create_session now m sid pd).1 = Except.ok s) :
    lookupSession (create_session now m sid pd).2.active_sessions sid = some s := by
  by_cases hcap : m.active_sessions.length ≥ m.max_concurrent_sessions
  · simp [create_session, hcap] at h
  · rcases hl : lookupSession m.active_sessions sid with _ | existing
    · rcases hmk : mkPlayerStats now (pd.stats.getD {}).health (pd.stats.getD {}).mana
          (pd.stats.getD {}).experience (pd.stats.getD {}).level with e | stats
      · simp [create_session, hcap, hl, hmk] at h
      · simp only [create_session, hcap, hl, hmk, if_neg, ite_false, Except.ok.injEq] at h
        simp only [create_session, hcap, hl, hmk, if_neg, ite_false]
        subst h
        exact lookup_storeSession_self _ _ _
    · simp only [create_session, hcap, hl, if_neg, ite_false, Except.ok.injEq] at h
      simp only [create_session, hcap, hl, if_neg, ite_false]
      subst h
      rfl

lemma session_context_snd {α : Type} (now : ℚ) (m : GameSessionManager) (sid : String)
    (body : Session → Except PyError α × Session) :
    ∃ reg, (session_context now m sid body).2 = { m with active_sessions := reg } := by
  unfold session_context
  rcases lookupSession m.active_sessions sid with _ | sess
  · exact ⟨m.active_sessions, rfl⟩
  · exact ⟨_, rfl⟩

lemma foldl_time (now : ℚ) (l : List (String × Session)) :
    ∀ (a : ℚ) (n : Nat),
      l.foldl (fun (tc : ℚ × Nat) p => (tc.1 + (now - p.2.created_at), tc.2 + 1)) (a, n) =
        (a + (l.map (fun p => now - p.2.created_at)).sum, n + l.length) := by
  induction l with
  | nil => intro a n; simp
  | cons p tl ih =>
      intro a n
      simp only [List.foldl_cons, List.map_cons, List.sum_cons, List.length_cons, ih]
      refine Prod.ext ?_ ?_
      · simp [add_assoc]
      · simp; omega

/-! Claim theorems. -/

/-- Claim C1 counterexample: a bound-1 manager whose only registered session is
`Completed` (zero sessions in `Active` state) still rejects `create_session("b")`
with the capacity `RuntimeError`, contradicting the claim that only `Active`
sessions count against the admission bound. -/
theorem c1_counterexample :
    lookupSession exManager1Done.active_sessions "b" = none ∧
    (get_session_summary 2 exManager1Done).active_count = 0 ∧
    0 < exManager1Done.max_concurrent_sessions ∧
    (create_session 2 exManager1Done "b" pdDefault).1 =
      Except.error (PyError.runtimeError (capacityMsg 1)) :=
  ⟨rfl, rfl, by decide, rfl⟩

/-- Claim C1 (amended): for an id not present in the registry, `create_session`
fails with `CapacityExceeded` exactly when the total number of registered
sessions — whatever their state, `Completed` and `Errored` included — is at
least `max_concurrent_sessions`. -/
theorem c1_amended (now : ℚ) (m : GameSessionManager) (sid : String) (pd : PlayerData)
    (habs : lookupSession m.active_sessions sid = none) :
    (create_session now m sid pd).1 =
        Except.error (PyError.runtimeError (capacityMsg m.max_concurrent_sessions)) ↔
      m.max_concurrent_sessions ≤ m.active_sessions.length := by
  by_cases hcap : m.active_sessions.length ≥ m.max_concurrent_sessions
  · simp [create_session, hcap]
  · constructor
    · intro h
      rcases hmk : mkPlayerStats now (pd.stats.getD {}).health (pd.stats.getD {}).mana
          (pd.stats.getD {}).experience (pd.stats.getD {}).level with e | stats
      · simp only [create_session, hcap, habs, hmk, if_neg, ite_false] at h
        simp only [Except.error.injEq] at h
        exact absurd (hmk.trans (congrArg Except.error h))
          (mkPlayerStats_ne_runtimeError now _ _ _ _ _)
      · simp [create_session, hcap, habs, hmk] at h
    · intro h
      exact absurd h hcap

/-- Claim C1 witness: the amended equivalence applied to the concrete bound-1
manager whose single registered session is completed. -/
theorem c1_witness :
    lookupSession exManager1Done.active_sessions "b" = none ∧
    (create_session 2 exManager1Done "b" pdDefault).1 =
      Except.error
        (PyError.runtimeError (capacityMsg exManager1Done.max_concurrent_sessions)) :=
  ⟨rfl, (c1_amended 2 exManager1Done "b" pdDefault rfl).mpr (by decide)⟩

/-- Claim C2 counterexample: with bound 1, `create_session("a")` succeeds and a
second `create_session("a")` on the very same id raises the capacity
`RuntimeError` instead of returning the existing session — the capacity check
runs before the duplicate check, so the claim fails without a
below-capacity hypothesis. -/
theorem c2_counterexample :
    (create_session 0 (GameSessionManager.init 1) "a" pdDefault).1 = Except.ok exSessionA ∧
    (create_session 1 exManager1 "a" pdDefault).1 =
      Except.error (PyError.runtimeError (capacityMsg 1)) :=
  ⟨rfl, rfl⟩

/-- Claim C2 (amended): if `create_session(id, f1)` succeeded and the registry
is strictly below capacity at the time of the second call, then
`create_session(id, f2)` returns the first session unchanged, raises no error
(no validation of `f2` happens), and changes neither the registry nor any
counter. -/
theorem c2_amended (now now' : ℚ) (m : GameSessionManager) (sid : String)
    (pd1 pd2 : PlayerData) (s : Session)
    (h1 : (create_session now m sid pd1).1 = Except.ok s)
    (hc : (create_session now m sid pd1).2.active_sessions.length <
            (create_session now m sid pd1).2.max_concurrent_sessions) :
    create_session now' (create_session now m sid pd1).2 sid pd2 =
      (Except.ok s, (create_session now m sid pd1).2) := by
  have hl := create_ok_lookup now m sid pd1 s h1
  set m1 := (create_session now m sid pd1).2 with hm1
  simp [create_session, hl, not_le.mpr hc]

/-- Claim C2 witness: with bound 2, creating `"a"`, then re-creating `"a"` with
an invalid stats dict (negative health) returns the original session and the
unchanged manager — no `ValueError` for the second call. -/
theorem c2_witness :
    create_session 1 (create_session 0 (GameSessionManager.init 2) "a" pdDefault).2 "a" pdBad =
      (Except.ok exSessionA, (create_session 0 (GameSessionManager.init 2) "a" pdDefault).2) :=
  c2_amended 0 1 (GameSessionManager.init 2) "a" pdDefault pdBad exSessionA rfl (by decide)

/-- Claim C3: when the session is present and the scope body raises, the
exception propagates to the caller unchanged and the registry entry is left
with `state = 'error'` — the caller never observes the failure with the
session still marked anything but `Errored`. -/
theorem c3_scope_failure {α : Type} (now : ℚ) (m : GameSessionManager) (sid : String)
    (body : Session → Except PyError α × Session) (sess sBody : Session) (e : PyError)
    (hl : lookupSession m.active_sessions sid = some sess)
    (hb : body { sess with last_activity := now } = (Except.error e, sBody)) :
    (session_context now m sid body).1 = Except.error e ∧
    (lookupSession (session_context now m sid body).2.active_sessions sid).map
        Session.state = some SessionState.error := by
  simp [session_context, hl, hb, lookup_storeSession_self]

/-- Claim C3 witness: a body raising `ValueError("boom")` inside a scope on the
concrete one-session manager: the error comes back and the session reads as
`Errored`. -/
theorem c3_witness :
    (session_context 9 exManager2 "a" exFailBody).1 =
      Except.error (PyError.valueError "boom") ∧
    (lookupSession (session_context 9 exManager2 "a" exFailBody).2.active_sessions "a").map
        Session.state = some SessionState.error :=
  c3_scope_failure 9 exManager2 "a" exFailBody exSessionA
    { exSessionA with last_activity := 9 } (PyError.valueError "boom") rfl rfl

/-- Claim C4 counterexample: scoping a `Completed` session does not mark it
`Active` before the body runs — a body that observes the state at entry sees
`completed`, contradicting the claim that the state is re-marked `Active`
(re-entered) on scope entry. -/
theorem c4_counterexample :
    (lookupSession exManager1Done.active_sessions "a").map Session.state =
      some SessionState.completed ∧
    (session_context 5 exManager1Done "a" (fun s => (Except.ok s.state, s))).1 =
      Except.ok SessionState.completed ∧
    SessionState.completed ≠ SessionState.active :=
  ⟨rfl, rfl, by decide⟩

/-- Claim C4 (amended): on scope entry, an absent id fails with the
`SessionNotFound` `ValueError` and the manager is untouched; a present id hands
the body the session with `last_activity` set to the current time and every
other field — the state included — unchanged (the state is not re-marked
`Active`). -/
theorem c4_amended (now : ℚ) (m : GameSessionManager) (sid : String) :
    (∀ (α : Type) (body : Session → Except PyError α × Session),
      lookupSession m.active_sessions sid = none →
      session_context now m sid body =
        (Except.error (PyError.valueError (notFoundMsg sid)), m)) ∧
    (∀ sess, lookupSession m.active_sessions sid = some sess →
      (session_context now m sid (fun s => (Except.ok s, s))).1 =
        Except.ok { sess with last_activity := now }) := by
  constructor
  · intro α body h
    simp [session_context, h]
  · intro sess h
    simp [session_context, h]

/-- Claim C4 witness: the amended entry contract applied at an unknown id and
at the live session of the concrete manager. -/
theorem c4_witness :
    session_context 5 exManager2 "missing" exFailBody =
      (Except.error (PyError.valueError (notFoundMsg "missing")), exManager2) ∧
    (session_context 5 exManager2 "a" (fun s => (Except.ok s, s))).1 =
      Except.ok { exSessionA with last_activity := 5 } :=
  ⟨(c4_amended 5 exManager2 "missing").1 Unit exFailBody rfl,
   (c4_amended 5 exManager2 "a").2 exSessionA rfl⟩

/-- Claim C5: with the id absent and capacity available, a stats dict carrying
a negative health or a sub-1 level makes `create_session` raise the matching
validation `ValueError` and register nothing: the registry mapping is exactly
what it was before the call. -/
theorem c5_invalid_initial (now : ℚ) (m : GameSessionManager) (sid : String)
    (pd : PlayerData) (si : StatsInput)
    (hcap : m.active_sessions.length < m.max_concurrent_sessions)
    (habs : lookupSession m.active_sessions sid = none)
    (hst : pd.stats = some si)
    (hbad : si.health.getD 100 < 0 ∨ si.level.getD 1 < 1) :
    ((create_session now m sid pd).1 =
        Except.error (PyError.valueError "Health cannot be negative") ∨
      (create_session now m sid pd).1 =
        Except.error (PyError.valueError "Level must be at least 1")) ∧
    (create_session now m sid pd).2.active_sessions = m.active_sessions := by
  have hcap' : ¬ m.active_sessions.length ≥ m.max_concurrent_sessions := not_le.mpr hcap
  by_cases hh : si.health.getD 100 < 0
  · have hmk : mkPlayerStats now si.health si.mana si.experience si.level =
        Except.error (PyError.valueError "Health cannot be negative") := by
      unfold mkPlayerStats
      simp [hh]
    constructor
    · left
      simp [create_session, hcap', habs, hst, hmk]
    · simp [create_session, hcap', habs, hst, hmk]
  · have hl2 : si.level.getD 1 < 1 := hbad.resolve_left hh
    have hmk : mkPlayerStats now si.health si.mana si.experience si.level =
        Except.error (PyError.valueError "Level must be at least 1") := by
      unfold mkPlayerStats
      simp [hh, hl2]
    constructor
    · right
      simp [create_session, hcap', habs, hst, hmk]
    · simp [create_session, hcap', habs, hst, hmk]

/-- Claim C5 witness: creating `"a"` on an empty bound-1 manager with health −5
raises the health `ValueError` and leaves the registry empty. -/
theorem c5_witness :
    ((create_session 0 (GameSessionManager.init 1) "a" pdBad).1 =
        Except.error (PyError.valueError "Health cannot be negative") ∨
      (create_session 0 (GameSessionManager.init 1) "a" pdBad).1 =
        Except.error (PyError.valueError "Level must be at least 1")) ∧
    (create_session 0 (GameSessionManager.init 1) "a" pdBad).2.active_sessions =
      (GameSessionManager.init 1).active_sessions :=
  c5_invalid_initial 0 (GameSessionManager.init 1) "a" pdBad exBadStats (by decide) rfl rfl
    (Or.inl (by decide))

/-- Claim C6: `update_player_stats` returns `false` and leaves the manager
untouched on an unknown id; on a known id it returns `false` with the stats
unchanged when the patched health would be negative or the patched level below
one, and otherwise returns `true` having replaced the stats by the patch, every
field not named in the patch keeping its current value. -/
theorem c6_update_contract (now : ℚ) (m : GameSessionManager) (sid : String)
    (upd : StatsInput) :
    (lookupSession m.active_sessions sid = none →
      update_player_stats now m sid upd = (false, m)) ∧
    (∀ sess, lookupSession m.active_sessions sid = some sess →
      ((upd.health.getD sess.player.stats.health < 0 ∨
          upd.level.getD sess.player.stats.level < 1) →
        (update_player_stats now m sid upd).1 = false ∧
        (lookupSession (update_player_stats now m sid upd).2.active_sessions sid).map
            (fun s => s.player.stats) = some sess.player.stats) ∧
      (0 ≤ upd.health.getD sess.player.stats.health →
        1 ≤ upd.level.getD sess.player.stats.level →
        (update_player_stats now m sid upd).1 = true ∧
        (lookupSession (update_player_stats now m sid upd).2.active_sessions sid).map
            (fun s => s.player.stats) =
          some { health := upd.health.getD sess.player.stats.health
                 mana := upd.mana.getD sess.player.stats.mana
                 experience := upd.experience.getD sess.player.stats.experience
                 level := upd.level.getD sess.player.stats.level
                 last_updated := now })) := by
  constructor
  · intro h
    simp [update_player_stats, session_context, h]
  · intro sess h
    constructor
    · intro hbad
      by_cases hh : upd.health.getD sess.player.stats.health < 0
      · have hmk : mkPlayerStats now (some (upd.health.getD sess.player.stats.health))
            (some (upd.mana.getD sess.player.stats.mana))
            (some (upd.experience.getD sess.player.stats.experience))
            (some (upd.level.getD sess.player.stats.level)) =
            Except.error (PyError.valueError "Health cannot be negative") := by
          unfold mkPlayerStats
          simp [hh]
        constructor
        · simp [update_player_stats, session_context, h, hmk]
        · simp [update_player_stats, session_context, h, hmk, lookup_storeSession_self]
      · have hl2 : upd.level.getD sess.player.stats.level < 1 := hbad.resolve_left hh
        have hmk : mkPlayerStats now (some (upd.health.getD sess.player.stats.health))
            (some (upd.mana.getD sess.player.stats.mana))
            (some (upd.experience.getD sess.player.stats.experience))
            (some (upd.level.getD sess.player.stats.level)) =
            Except.error (PyError.valueError "Level must be at least 1") := by
          unfold mkPlayerStats
          simp [hh, hl2]
        constructor
        · simp [update_player_stats, session_context, h, hmk]
        · simp [update_player_stats, session_context, h, hmk, lookup_storeSession_self]
    · intro hh hl2
      have hmk : mkPlayerStats now (some (upd.health.getD sess.player.stats.health))
          (some (upd.mana.getD sess.player.stats.mana))
          (some (upd.experience.getD sess.player.stats.experience))
          (some (upd.level.getD sess.player.stats.level)) =
          Except.ok
            { health := upd.health.getD sess.player.stats.health
              mana := upd.mana.getD sess.player.stats.mana
              experience := upd.experience.getD sess.player.stats.experience
              level := upd.level.getD sess.player.stats.level
              last_updated := now } := by
        unfold mkPlayerStats
        simp [not_lt.mpr hh, not_lt.mpr hl2]
      constructor
      · simp [update_player_stats, session_context, h, hmk]
      · by_cases hst : sess.state = SessionState.error <;>
          simp [update_player_stats, session_context, h, hmk, hst,
            lookup_storeSession_self]

/-- Claim C6 witness: on the concrete manager, patching only `health` of the
live session `"a"` succeeds, and the same patch on a missing id returns
`false` with the manager unchanged. -/
theorem c6_witness :
    update_player_stats 3 exManager2 "missing" exUpd = (false, exManager2) ∧
    (update_player_stats 3 exManager2 "a" exUpd).1 = true :=
  ⟨(c6_update_contract 3 exManager2 "missing" exUpd).1 rfl,
   (((c6_update_contract 3 exManager2 "a" exUpd).2 exSessionA rfl).2 (by decide)
      (by decide)).1⟩

/-- Claim C7: when the scope body returns normally, the registry entry exits
the scope as `Completed`, except that a state already equal to `Errored` at
exit time is preserved — `Errored` is sticky across a normal exit. -/
theorem c7_normal_exit {α : Type} (now : ℚ) (m : GameSessionManager) (sid : String)
    (body : Session → Except PyError α × Session) (sess s2 : Session) (a : α)
    (hl : lookupSession m.active_sessions sid = some sess)
    (hb : body { sess with last_activity := now } = (Except.ok a, s2)) :
    (lookupSession (session_context now m sid body).2.active_sessions sid).map
        Session.state =
      some (if s2.state = SessionState.error then SessionState.error
            else SessionState.completed) := by
  by_cases hst : s2.state = SessionState.error <;>
    simp [session_context, hl, hb, hst, lookup_storeSession_self]

/-- Claim C7 witness: a body that writes `state = 'error'` and returns normally
leaves the session `Errored` after the scope (sticky), via the claim theorem at
a concrete input. -/
theorem c7_witness :
    (lookupSession (session_context 4 exManager2 "a" exErrBody).2.active_sessions "a").map
        Session.state = some SessionState.error := by
  have h := c7_normal_exit 4 exManager2 "a" exErrBody exSessionA
      { exSessionA with last_activity := 4, state := SessionState.error } () rfl rfl
  simpa using h

/-- Claim C8 counterexample: on a snapshot holding one session created 60
seconds before `now`, the summary's average is `1` (the source divides
`total_seconds()` by 60 — minutes, per its own docstring) while the mean of
`(now − createdAt)` expressed in seconds is `60`. -/
theorem c8_counterexample :
    (get_session_summary 60 exManager2).average_session_time = 1 ∧
    averageLifetimeSeconds_specModel 60 exManager2 = 60 ∧
    (1 : ℚ) ≠ 60 := by
  refine ⟨?_, ?_, by norm_num⟩
  · norm_num [get_session_summary, _calculate_average_session_time,
      averageLifetimeSeconds_specModel, exManager2, pdDefault, create_session,
      GameSessionManager.init, mkPlayerStats, lookupSession, storeSession]
  · norm_num [averageLifetimeSeconds_specModel, exManager2, pdDefault, create_session,
      GameSessionManager.init, mkPlayerStats, lookupSession, storeSession]

/-- Claim C8 (amended): the summary's average lifetime is the mean of
`(now − createdAt)` over the snapshot expressed in minutes — total seconds
divided by 60 and by the session count — every registered session carrying a
`createdAt`; on an empty registry it is `0` with no division performed. -/
theorem c8_amended (now : ℚ) (m : GameSessionManager) :
    (get_session_summary now m).average_session_time =
      if m.active_sessions.isEmpty then 0
      else ((m.active_sessions.map (fun p => now - p.2.created_at)).sum) / 60 /
            (m.active_sessions.length : ℚ) := by
  show _calculate_average_session_time now m = _
  unfold _calculate_average_session_time
  cases hl : m.active_sessions with
  | nil => simp
  | cons hd tl =>
      rw [foldl_time now (hd :: tl) 0 0]
      have hpos : 0 < (hd :: tl).length := Nat.succ_pos _
      simp [hpos]

/-- Claim C10: along every call sequence made of `create_session`,
`session_context` scopes, `update_player_stats` and `get_session_summary`, the
queryable counters keep `completed = 0` and `active = created`: no operation
ever decrements `active` or increments `completed`, whatever states the
sessions themselves reach. -/
theorem c10_counters_frozen (n : Nat) (ops : List Op) :
    (applyOps (GameSessionManager.init n) ops).stats_completed = 0 ∧
    (applyOps (GameSessionManager.init n) ops).stats_active =
      (applyOps (GameSessionManager.init n) ops).stats_created := by
  have key : ∀ (l : List Op) (m : GameSessionManager),
      m.stats_completed = 0 ∧ m.stats_active = m.stats_created →
      (applyOps m l).stats_completed = 0 ∧
        (applyOps m l).stats_active = (applyOps m l).stats_created := by
    intro l
    induction l with
    | nil => intro m h; exact h
    | cons op tl ih =>
        intro m h
        refine ih (applyOp m op) ?_
        cases op with
        | create now sid pd =>
            by_cases hcap : m.active_sessions.length ≥ m.max_concurrent_sessions
            · simpa [applyOp, create_session, hcap] using h
            · rcases hl : lookupSession m.active_sessions sid with _ | existing
              · rcases hmk : mkPlayerStats now (pd.stats.getD {}).health
                    (pd.stats.getD {}).mana (pd.stats.getD {}).experience
                    (pd.stats.getD {}).level with e | stats
                · simpa [applyOp, create_session, hcap, hl, hmk] using h
                · simp [applyOp, create_session, hcap, hl, hmk]
                  omega
              · simpa [applyOp, create_session, hcap, hl] using h
        | scope now sid body =>
            obtain ⟨reg, hreg⟩ := session_context_snd now m sid body
            simpa [applyOp, hreg] using h
        | update now sid upd =>
            obtain ⟨reg, hreg⟩ := session_context_snd now m sid
              (fun session =>
                match mkPlayerStats now
                    (some (upd.health.getD session.player.stats.health))
                    (some (upd.mana.getD session.player.stats.mana))
                    (some (upd.experience.getD session.player.stats.experience))
                    (some (upd.level.getD session.player.stats.level)) with
                | Except.error e => (Except.error e, session)
                | Except.ok new_stats =>
                    (Except.ok true,
                      { session with
                          player := { session.player with stats := new_stats } }))
            have hsplit : (update_player_stats now m sid upd).2 =
                { m with active_sessions := reg } := by
              unfold update_player_stats
              dsimp only
              split <;> exact hreg
            simpa [applyOp, hsplit] using h
        | summary _ => exact h
  exact key ops (GameSessionManager.init n) ⟨rfl, rfl⟩

end SmartAIBridge
